import Mathlib

/-!
Verification of the callback-to-fiber adapter example (`adapt_callbacks.cpp`).

The fake `AsyncAPI` service keeps two fields: the stored payload `data_` and
the pending injected error code `injected_`.  Each `init_write`/`init_read`
call synchronously snapshots and resets `injected_`, then (asynchronously)
delivers the snapshot to the completion callback; the adapters suspend on a
promise/future pair until that callback fires.  The rendezvous is
deterministic — the callback is invoked exactly once with values captured
synchronously with the caller — so the whole system is faithfully modelled by
sequential state passing: each operation maps a service state to the updated
state together with the value the adapter ultimately observes.

Error codes are C++ `int`s that are only stored and compared against `0`
(never combined arithmetically), so `Int` models them without overflow
concerns.
-/

namespace Fiber

/-- Error code type of the async service (C++ `typedef int errorcode`);
`0` means success. -/
abbrev Errorcode := Int

/-- State of the fake `AsyncAPI` service: the stored payload `data_` and the
pending injected error code `injected_`. -/
structure AsyncAPI where
  data_ : String
  injected_ : Errorcode
  deriving DecidableEq, Repr

/-- Constructor `AsyncAPI::AsyncAPI()`: initializes `injected_` to `0`.
The C++ default-constructs `data_` to the empty string. -/
def AsyncAPI.new : AsyncAPI :=
  { data_ := "", injected_ := 0 }

/-- `AsyncAPI::inject_error(ec)`: stores `ec` into `injected_`. -/
def AsyncAPI.inject_error (s : AsyncAPI) (ec : Errorcode) : AsyncAPI :=
  { s with injected_ := ec }

/-- `AsyncAPI::init_write(data, callback)`: snapshots `injected_`, resets it
to `0`, updates `data_` with the new payload only when no error was injected,
and delivers the snapshot to the callback.  Modelled as returning the updated
state together with the code the callback receives. -/
def AsyncAPI.init_write (s : AsyncAPI) (data : String) : AsyncAPI × Errorcode :=
  let injected := s.injected_
  ({ data_ := if injected = 0 then data else s.data_, injected_ := 0 }, injected)

/-- `AsyncAPI::init_read(callback)`: snapshots `injected_`, resets it to `0`,
copies `data_`, and delivers `(snapshot, copy)` to the callback.  Modelled as
returning the updated state together with the pair the callback receives. -/
def AsyncAPI.init_read (s : AsyncAPI) : AsyncAPI × (Errorcode × String) :=
  let injected := s.injected_
  ({ s with injected_ := 0 }, (injected, s.data_))

/-- A `std::runtime_error`, identified by its `what()` message. -/
structure RuntimeError where
  what : String
  deriving DecidableEq, Repr

/-- `make_exception(desc, ec)`: formats
`"Error in AsyncAPI::" << desc << "(): " << ec` into a `std::runtime_error`.
`Int.repr` matches the decimal rendering of `operator<<` on `int`. -/
def make_exception (desc : String) (ec : Errorcode) : RuntimeError :=
  { what := "Error in AsyncAPI::" ++ desc ++ "(): " ++ toString ec }

/-- Outcome-returning write adapter `write_ec(api, data)`: issues
`init_write` and returns the code delivered to the completion callback.
It never raises (its C++ body contains no throw path). -/
def write_ec (api : AsyncAPI) (data : String) : AsyncAPI × Errorcode :=
  api.init_write data

/-- Value-returning write adapter `write(api, data)`: calls `write_ec` and
throws `make_exception("write", ec)` when the returned code is nonzero.
The thrown-or-returned outcome is modelled with `Except`. -/
def write (api : AsyncAPI) (data : String) : AsyncAPI × Except RuntimeError Unit :=
  let r := write_ec api data
  if r.2 ≠ 0 then (r.1, .error (make_exception "write" r.2)) else (r.1, .ok ())

/-- Outcome-returning read adapter `read_ec(api)`: issues `init_read` and
returns the `(code, payload)` pair delivered to the completion callback. -/
def read_ec (api : AsyncAPI) : AsyncAPI × (Errorcode × String) :=
  api.init_read

/-- Value-returning read adapter `read(api)`: issues `init_read` with a
callback that fulfills the promise with the payload when the code is `0`
and with the exception `make_exception("read", ec)` otherwise. -/
def read (api : AsyncAPI) : AsyncAPI × Except RuntimeError String :=
  let r := api.init_read
  if r.2.1 = 0 then (r.1, .ok r.2.2) else (r.1, .error (make_exception "read" r.2.1))

/-- The spec's description of the value-returning write as a refinement of
the outcome-returning one: run `write_ec`, then raise
`make_exception "write" ec` iff the returned code `ec` is nonzero, with the
same effect on the service state. -/
def write_spec (api : AsyncAPI) (data : String) : AsyncAPI × Except RuntimeError Unit :=
  let r := write_ec api data
  if r.2 ≠ 0 then (r.1, .error (make_exception "write" r.2)) else (r.1, .ok ())

/-- The spec's description of the value-returning read as a refinement of
the outcome-returning one: run `read_ec`, then raise
`make_exception "read" ec` iff the returned code `ec` is nonzero and
otherwise return the payload, with the same effect on the service state. -/
def read_spec (api : AsyncAPI) : AsyncAPI × Except RuntimeError String :=
  let r := read_ec api
  if r.2.1 ≠ 0 then (r.1, .error (make_exception "read" r.2.1)) else (r.1, .ok r.2.2)

/-- C1: for every nonzero code `C` injected immediately before the call, each
value-returning adapter raises a failure equal to the Failure Construction
Helper's output for its operation name and `C` (`make_exception "write" C`
for `write`, `make_exception "read" C` for `read`); for `C = 0` both return
normally without raising. -/
theorem value_adapters_raise_injected (s : AsyncAPI) (C : Errorcode) (d : String) :
    (C ≠ 0 →
      (write (s.inject_error C) d).2 = .error (make_exception "write" C) ∧
      (read (s.inject_error C)).2 = .error (make_exception "read" C)) ∧
    (C = 0 →
      (write (s.inject_error C) d).2 = .ok () ∧
      (read (s.inject_error C)).2 = .ok s.data_) := by
  cases s with
  | mk d0 i0 =>
    constructor
    · intro hC
      simp [write, read, write_ec, AsyncAPI.init_write, AsyncAPI.init_read,
        AsyncAPI.inject_error, hC]
    · intro hC
      subst hC
      simp [write, read, write_ec, AsyncAPI.init_write, AsyncAPI.init_read,
        AsyncAPI.inject_error]

/-- Witness for C1: injecting code 4 before a read raises exactly
"Error in AsyncAPI::read(): 4". -/
theorem value_adapters_raise_injected_witness :
    (read ((AsyncAPI.mk "abcd" 0).inject_error 4)).2 =
      .error { what := "Error in AsyncAPI::read(): 4" } := by
  have h := ((value_adapters_raise_injected ⟨"abcd", 0⟩ 4 "x").1 (by decide)).2
  simpa [make_exception] using h

/-- C2: for every nonzero code `C` injected immediately before the call, the
outcome-returning write adapter returns exactly `C` for every data argument
(and cannot raise: its model has no error outcome). -/
theorem write_ec_returns_injected (s : AsyncAPI) (C : Errorcode) (d : String)
    (h : C ≠ 0) :
    (write_ec (s.inject_error C) d).2 = C := rfl

/-- Witness for C2: injecting code 1 before `write_ec "ijkl"` returns 1. -/
theorem write_ec_returns_injected_witness :
    (write_ec ((AsyncAPI.mk "efgh" 0).inject_error 1) "ijkl").2 = 1 :=
  write_ec_returns_injected ⟨"efgh", 0⟩ 1 "ijkl" (by decide)

/-- C3: from any state with no pending injected error, a write of payload `P`
followed by a read returns exactly `P`. -/
theorem write_read_roundtrip (s : AsyncAPI) (P : String) (h : s.injected_ = 0) :
    (read (write s P).1).2 = .ok P := by
  cases s with
  | mk d0 i0 =>
    simp only [AsyncAPI.injected_] at h
    subst h
    simp [read, write, write_ec, AsyncAPI.init_write, AsyncAPI.init_read]

/-- Witness for C3: writing "abcd" into a fresh service then reading returns
"abcd". -/
theorem write_read_roundtrip_witness :
    (read (write AsyncAPI.new "abcd").1).2 = .ok "abcd" :=
  write_read_roundtrip AsyncAPI.new "abcd" rfl

/-- C4: when the pending injected code is 0, `write_ec` returns code 0 and
`read_ec` returns code 0 paired with the stored payload (the payload of the
last successful write). -/
theorem outcome_adapters_success (s : AsyncAPI) (d : String)
    (h : s.injected_ = 0) :
    (write_ec s d).2 = 0 ∧ (read_ec s).2 = (0, s.data_) := by
  cases s with
  | mk d0 i0 =>
    simp only [AsyncAPI.injected_] at h
    subst h
    exact ⟨rfl, rfl⟩

/-- Witness for C4: on a fresh service holding "efgh", `write_ec` returns 0
and `read_ec` returns `(0, "efgh")`. -/
theorem outcome_adapters_success_witness :
    (write_ec (AsyncAPI.mk "efgh" 0) "x").2 = 0 ∧
      (read_ec (AsyncAPI.mk "efgh" 0)).2 = (0, "efgh") :=
  outcome_adapters_success ⟨"efgh", 0⟩ "x" rfl

/-- C5: error injection is one-shot.  After `inject_error C`, the very next
operation observes `C` (`write_ec`/`read_ec` return it; `write`/`read` raise
iff it is nonzero), every operation resets the pending code to 0, and hence
the operation after that observes success. -/
theorem inject_error_one_shot (s : AsyncAPI) (C : Errorcode) (d e : String) :
    (write_ec (s.inject_error C) d).2 = C ∧
    (read_ec (s.inject_error C)).2.1 = C ∧
    (write (s.inject_error C) d).2 =
      (if C = 0 then .ok () else .error (make_exception "write" C)) ∧
    (read (s.inject_error C)).2 =
      (if C = 0 then .ok (s.data_) else .error (make_exception "read" C)) ∧
    (write_ec (s.inject_error C) d).1.injected_ = 0 ∧
    (read_ec (s.inject_error C)).1.injected_ = 0 ∧
    (write (s.inject_error C) d).1.injected_ = 0 ∧
    (read (s.inject_error C)).1.injected_ = 0 ∧
    (write_ec (write_ec (s.inject_error C) d).1 e).2 = 0 ∧
    (read_ec (read_ec (s.inject_error C)).1).2.1 = 0 ∧
    (read_ec (write_ec (s.inject_error C) d).1).2.1 = 0 ∧
    (write_ec (read_ec (s.inject_error C)).1 e).2 = 0 := by
  cases s with
  | mk d0 i0 =>
    by_cases hC : C = 0 <;>
      simp [write, read, write_ec, read_ec, AsyncAPI.init_write,
        AsyncAPI.init_read, AsyncAPI.inject_error, hC]

/-- C6: the Failure Construction Helper is a pure function of
`(operation-name, code)` — it takes no service state and returns a failure
whose message is exactly `Error in AsyncAPI::<operation>(): <code>`, with
the code rendered in decimal by `toString`. -/
theorem make_exception_message (desc : String) (ec : Errorcode) :
    make_exception desc ec =
      { what := "Error in AsyncAPI::" ++ desc ++ "(): " ++ toString ec } := rfl

/-- C7: a write attempted while a nonzero code is pending leaves the stored
payload unchanged — a subsequent (successful) `read_ec` still returns the
payload held before the failed write, for both `write_ec` and `write`. -/
theorem failed_write_preserves_payload (s : AsyncAPI) (C : Errorcode)
    (d : String) (h : C ≠ 0) :
    (read_ec (write_ec (s.inject_error C) d).1).2 = (0, s.data_) ∧
    (read_ec (write (s.inject_error C) d).1).2 = (0, s.data_) := by
  cases s with
  | mk d0 i0 =>
    simp [write, read_ec, write_ec, AsyncAPI.init_write, AsyncAPI.init_read,
      AsyncAPI.inject_error, h]

/-- Witness for C7: after `inject_error 1` a `write_ec "ijkl"` fails and a
subsequent `read_ec` still returns `(0, "efgh")`. -/
theorem failed_write_preserves_payload_witness :
    (read_ec (write_ec ((AsyncAPI.mk "efgh" 0).inject_error 1) "ijkl").1).2 =
      (0, "efgh") :=
  (failed_write_preserves_payload ⟨"efgh", 0⟩ 1 "ijkl" (by decide)).1

/-- C8: in every state — even with a nonzero pending code — `read_ec`
returns the currently stored payload alongside the pending code: the code
gives the payload a concrete value where the spec leaves it unspecified. -/
theorem read_ec_payload_is_stored (s : AsyncAPI) :
    (read_ec s).2 = (s.injected_, s.data_) := rfl

/-- C9: the value-returning adapters refine the outcome-returning ones:
`write` equals running `write_ec` then raising `make_exception "write" ec`
iff the code is nonzero, and `read` equals running `read_ec` then raising
`make_exception "read" ec` iff the code is nonzero and returning the payload
otherwise, with identical effect on the service state. -/
theorem value_adapters_refine_outcome (api : AsyncAPI) (d : String) :
    write api d = write_spec api d ∧ read api = read_spec api := by
  refine ⟨rfl, ?_⟩
  cases api with
  | mk d0 i0 =>
    by_cases hi : i0 = 0 <;>
      simp [read, read_spec, read_ec, AsyncAPI.init_read, hi]

/-- C10: `inject_error` unconditionally overwrites any previously injected,
not-yet-consumed code: after `inject_error C` the pending code is exactly
`C` regardless of the prior state, the stored payload is untouched, and a
prior injection leaves no trace. -/
theorem inject_error_overwrites (s : AsyncAPI) (C Cprev : Errorcode) :
    (s.inject_error Cprev).inject_error C = s.inject_error C ∧
    (s.inject_error C).injected_ = C ∧
    (s.inject_error C).data_ = s.data_ := ⟨rfl, rfl, rfl⟩

end Fiber
